import Mathlib

/-!
Shallow embedding of the NBA data helper module (`nba_live.py`).

The module fetches provider data over the network; here every fetcher is
modelled as a pure function of the provider's (already fetched) response
data, which is the part of the code the specification describes.  Python
runtime values are modelled by the inductive type `Val` (floats as
rationals), Python dicts by association lists in insertion order, and
fallible Python code (uncaught exceptions) by `Except`/`Option` results.
-/

/-- Python runtime values as they occur in provider rows and JSON-style
payloads: `None`, booleans, ints, floats (modelled as rationals), strings,
lists, and dicts (association lists in insertion order). -/
inductive Val where
  | vNone : Val
  | vBool (b : Bool) : Val
  | vInt (n : Int) : Val
  | vFloat (q : Rat) : Val
  | vStr (s : String) : Val
  | vList (xs : List Val) : Val
  | vDict (fields : List (String × Val)) : Val

/-- A provider row: a Python dict from field names to values
(`row.get(key, d)` is `(rowGet row key).getD d`). -/
def RawRow : Type := List (String × Val)

/-- Python `row.get(key)` without default: first binding of `key`, if any. -/
def rowGet (row : RawRow) (key : String) : Option Val :=
  (row.find? (fun e => e.1 == key)).map (fun e => e.2)

/-- Whether a value is Python's `None` (the `value is not None` test). -/
def Val.isNone : Val → Bool
  | .vNone => true
  | _ => false

/-- Python truthiness test, negated: `pyFalsy v = true` iff `v` is falsy
(`None`, `False`, zero, empty string/list/dict), as used by `x or 0`. -/
def pyFalsy : Val → Bool
  | .vNone => true
  | .vBool b => !b
  | .vInt n => n == 0
  | .vFloat q => q == 0
  | .vStr s => s.isEmpty
  | .vList xs => xs.isEmpty
  | .vDict fs => fs.isEmpty

/-- Whitespace characters recognised by Python's `str.split()` (ASCII
fragment). -/
def isPySpace (c : Char) : Bool :=
  c == ' ' || c == '\t' || c == '\n' || c == '\r' || c == '\x0b' || c == '\x0c'

/-- Numeric value of a run of decimal digit characters. -/
def digitsToNat (ds : List Char) : Nat :=
  ds.foldl (fun acc c => acc * 10 + (c.toNat - 48)) 0

/-- Parse a nonempty all-digit character run. -/
def parseDigits (ds : List Char) : Option Nat :=
  if !ds.isEmpty && ds.all Char.isDigit then some (digitsToNat ds) else none

/-- Strip leading and trailing whitespace, as Python's numeric constructors
do to string arguments. -/
def trimWs (cs : List Char) : List Char :=
  ((cs.dropWhile isPySpace).reverse.dropWhile isPySpace).reverse

/-- Python `int(s)` on a string (ASCII decimal fragment: optional sign and
a nonempty digit run); `none` models a raised `ValueError`. -/
def parseIntChars (cs : List Char) : Option Int :=
  match trimWs cs with
  | '-' :: ds => (parseDigits ds).map (fun n => -(n : Int))
  | '+' :: ds => (parseDigits ds).map (fun n => (n : Int))
  | ds => (parseDigits ds).map (fun n => (n : Int))

/-- Unsigned decimal body accepted by Python `float(s)` (fragment without
exponents and specials): `digits`, `digits.digits`, `.digits`, `digits.`. -/
def parseFloatBody (cs : List Char) : Option Rat :=
  let intPart := cs.takeWhile Char.isDigit
  let rest := cs.drop intPart.length
  match rest with
  | [] => if intPart.isEmpty then none else some (digitsToNat intPart : Rat)
  | '.' :: frac =>
    if frac.all Char.isDigit && (!intPart.isEmpty || !frac.isEmpty) then
      some ((digitsToNat intPart : Rat) + (digitsToNat frac : Rat) / (10 : Rat) ^ frac.length)
    else none
  | _ => none

/-- Python `float(s)` on a string (decimal fragment); `none` models a
raised `ValueError`. -/
def parseFloatChars (cs : List Char) : Option Rat :=
  match trimWs cs with
  | '-' :: body => (parseFloatBody body).map (fun q => -q)
  | '+' :: body => parseFloatBody body
  | body => parseFloatBody body

/-- Truncation toward zero, the behaviour of Python `int` on a float. -/
def ratTrunc (q : Rat) : Int :=
  if 0 ≤ q then q.floor else -((-q).floor)

/-- Python `int(v)`; `none` models a raised `TypeError`/`ValueError`. -/
def pyInt : Val → Option Int
  | .vBool b => some (if b then 1 else 0)
  | .vInt n => some n
  | .vFloat q => some (ratTrunc q)
  | .vStr s => parseIntChars s.toList
  | _ => none

/-- Python `float(v)`; `none` models a raised `TypeError`/`ValueError`. -/
def pyFloat : Val → Option Rat
  | .vBool b => some (if b then 1 else 0)
  | .vInt n => some (n : Rat)
  | .vFloat q => some q
  | .vStr s => parseFloatChars s.toList
  | _ => none

/-- The two caster callables used by the field mappings in the source
(`int` and `float`). -/
inductive Caster where
  | int : Caster
  | float : Caster

/-- Apply a caster; `none` models the `(TypeError, ValueError)` cases that
`_extract_fields` catches. -/
def pyCast : Caster → Val → Option Val
  | .int, v => (pyInt v).map Val.vInt
  | .float, v => (pyFloat v).map Val.vFloat

/-- One field of `_extract_fields`:
`value = row.get(source, default)`; then
`caster(value if value is not None else default)` with the declared default
substituted when the cast raises. -/
def extractOne (row : RawRow) (src : String) (caster : Caster) (dflt : Val) : Val :=
  let value := (rowGet row src).getD dflt
  let arg := if value.isNone then dflt else value
  (pyCast caster arg).getD dflt

/-- The field projector `_extract_fields(row, mapping)`: builds the output
dict in mapping (insertion) order. -/
def extractFields (row : RawRow) (mapping : List (String × String × Caster × Val)) :
    List (String × Val) :=
  mapping.map (fun e => (e.1, extractOne row e.2.1 e.2.2.1 e.2.2.2))

/-- The field-mapping spec used by `get_team_statistics`. -/
def teamFieldMapping : List (String × String × Caster × Val) :=
  [("wins", "W", Caster.int, Val.vInt 0),
   ("losses", "L", Caster.int, Val.vInt 0),
   ("winPct", "W_PCT", Caster.float, Val.vFloat 0),
   ("points", "PTS", Caster.float, Val.vFloat 0),
   ("rebounds", "REB", Caster.float, Val.vFloat 0),
   ("assists", "AST", Caster.float, Val.vFloat 0),
   ("steals", "STL", Caster.float, Val.vFloat 0),
   ("blocks", "BLK", Caster.float, Val.vFloat 0),
   ("turnovers", "TOV", Caster.float, Val.vFloat 0),
   ("plusMinus", "PLUS_MINUS", Caster.float, Val.vFloat 0)]

/-- The field-mapping spec used by `get_player_statistics`. -/
def playerFieldMapping : List (String × String × Caster × Val) :=
  [("points", "PTS", Caster.float, Val.vFloat 0),
   ("rebounds", "REB", Caster.float, Val.vFloat 0),
   ("assists", "AST", Caster.float, Val.vFloat 0),
   ("steals", "STL", Caster.float, Val.vFloat 0),
   ("blocks", "BLK", Caster.float, Val.vFloat 0),
   ("turnovers", "TOV", Caster.float, Val.vFloat 0),
   ("fieldGoalPct", "FG_PCT", Caster.float, Val.vFloat 0),
   ("threePointPct", "FG3_PCT", Caster.float, Val.vFloat 0),
   ("freeThrowPct", "FT_PCT", Caster.float, Val.vFloat 0),
   ("plusMinus", "PLUS_MINUS", Caster.float, Val.vFloat 0)]

/-- Return payload of `get_team_statistics`. -/
structure TeamStatsPayload where
  teamId : Int
  season : String
  perMode : String
  gamesPlayed : Int
  averages : List (String × Val)

/-- Return payload of `get_player_statistics`. -/
structure PlayerStatsPayload where
  playerId : Int
  season : String
  perMode : String
  gamesPlayed : Int
  averages : List (String × Val)

/-- The games-played extraction `int(row.get("GP", 0) or 0)`; `none`
models the uncaught exception when `int` raises on a truthy value. -/
def gamesPlayedOf (row : RawRow) : Option Int :=
  let raw := (rowGet row "GP").getD (Val.vInt 0)
  pyInt (if pyFalsy raw then Val.vInt 0 else raw)

/-- Post-fetch processing of `get_team_statistics`, as a function of the
provider's `overallTeamDashboard` rows.  An `Except.error` models an
uncaught exception escaping the function. -/
def getTeamStatistics (teamId : Int) (season perMode : String)
    (overallTeamDashboard : List RawRow) : Except String TeamStatsPayload :=
  match overallTeamDashboard with
  | [] => Except.ok ⟨teamId, season, perMode, 0, []⟩
  | row :: _ =>
    match gamesPlayedOf row with
    | some gp => Except.ok ⟨teamId, season, perMode, gp, extractFields row teamFieldMapping⟩
    | none => Except.error "int() raised converting GP"

/-- Post-fetch processing of `get_player_statistics`, as a function of the
provider's `overallPlayerDashboard` rows. -/
def getPlayerStatistics (playerId : Int) (season perMode : String)
    (overallPlayerDashboard : List RawRow) : Except String PlayerStatsPayload :=
  match overallPlayerDashboard with
  | [] => Except.ok ⟨playerId, season, perMode, 0, []⟩
  | row :: _ =>
    match gamesPlayedOf row with
    | some gp => Except.ok ⟨playerId, season, perMode, gp, extractFields row playerFieldMapping⟩
    | none => Except.error "int() raised converting GP"

/-- Round-half-to-even at integer precision, the rounding mode of Python's
built-in `round`. -/
def roundHalfEven (q : Rat) : Int :=
  let f := ⌊q⌋
  let r := q - (f : Rat)
  if r < 1 / 2 then f
  else if 1 / 2 < r then f + 1
  else if f % 2 = 0 then f else f + 1

/-- Python `round(q, 2)` on the rational model of floats. -/
def pyRound2 (q : Rat) : Rat :=
  (roundHalfEven (q * 100) : Rat) / 100

/-- One row of the `LeagueDashPlayerStats` data frame, restricted to the
columns the code reads; numeric columns are modelled as rationals. -/
structure PlayerRow where
  playerId : Int
  playerName : String
  teamId : Int
  team : String
  pts : Rat
  reb : Rat
  ast : Rat
  usgPct : Rat

/-- The ordering used by `sort_values(by=["PTS", "REB", "AST"],
ascending=False)`: points descending, then rebounds descending, then
assists descending.  `propPrec a b` says `a` may come (weakly) before `b`. -/
def propPrec (a b : PlayerRow) : Prop :=
  b.pts < a.pts ∨ (a.pts = b.pts ∧ (b.reb < a.reb ∨ (a.reb = b.reb ∧ b.ast ≤ a.ast)))

instance : DecidableRel propPrec := fun a b => by
  unfold propPrec
  infer_instance

/-- One emitted prop recommendation (the dict appended per row, with its
fixed keys, as a record). -/
structure PropRecommendation where
  playerId : Int
  playerName : String
  teamId : Int
  team : String
  points : Rat
  rebounds : Rat
  assists : Rat
  usagePct : Rat
  propScore : Rat
  deriving DecidableEq

/-- Return payload of `get_player_prop_recommendations`. -/
structure PropPayload where
  season : String
  perMode : String
  players : List PropRecommendation
  deriving DecidableEq

/-- Build one recommendation from a data-frame row (`row.get` on a frame
row always finds the column, and `x or 0.0` is the identity on numbers
except that it maps `0` to `0.0`, hence the identity on the rational
model). -/
def mkRecommendation (row : PlayerRow) : PropRecommendation :=
  { playerId := row.playerId
    playerName := row.playerName
    teamId := row.teamId
    team := row.team
    points := row.pts
    rebounds := row.reb
    assists := row.ast
    usagePct := row.usgPct
    propScore := pyRound2 (row.pts + row.reb * (3 / 4) + row.ast * (3 / 4)) }

/-- Pandas `DataFrame.head(n)`, i.e. the slice `df[:n]`: the first `n` rows
when `n ≥ 0`, and all rows except the last `|n|` when `n < 0`. -/
def pandasHead {α : Type} (n : Int) (l : List α) : List α :=
  if 0 ≤ n then l.take n.toNat else l.take (l.length - (-n).toNat)

/-- Post-fetch processing of `get_player_prop_recommendations`, as a
function of the league-dashboard data frame.  Pandas' multi-column
`sort_values` is a stable lexicographic sort (it lexsorts the key columns),
modelled here by the stable `List.insertionSort` under `propPrec`. -/
def getPlayerPropRecommendations (season perMode : String) (limit : Int)
    (frame : List PlayerRow) : PropPayload :=
  if frame.isEmpty then ⟨season, perMode, []⟩
  else
    let subset := List.insertionSort propPrec frame
    ⟨season, perMode, (pandasHead limit subset).map mkRecommendation⟩

/-- Python `x or 0.0` on a numeric value (maps falsy `0` to `0.0`; the
identity on the rational model of the numeric columns). -/
def pyOrZero (q : Rat) : Rat :=
  if q == 0 then 0 else q

/-- One row of the `PlayerCareerStats` data frame, restricted to the
columns the code reads. -/
structure CareerRow where
  seasonId : String
  gp : Rat
  pts : Rat
  ast : Rat
  reb : Rat

/-- Return value of `get_player_career_stats`. -/
structure CareerAverages where
  ppg : Rat
  apg : Rat
  rpg : Rat
  deriving DecidableEq

/-- Post-fetch processing of `get_player_career_stats`, as a function of
the career data frame: empty frame gives zeros; otherwise the rows labelled
`"Career"` are selected (`.loc[... == "Career"]` then `.iloc[0]`), falling
back to `tail(1)` — the last row — when none exists; a non-positive
games-played short-circuits to zeros; otherwise totals are divided by games
played. -/
def getPlayerCareerStats (careerData : List CareerRow) : CareerAverages :=
  match careerData with
  | [] => ⟨0, 0, 0⟩
  | r :: rs =>
    let totals :=
      match (r :: rs).filter (fun row => row.seasonId == "Career") with
      | c :: _ => c
      | [] => (r :: rs).getLast (List.cons_ne_nil r rs)
    let gamesPlayed := pyOrZero totals.gp
    if gamesPlayed ≤ 0 then ⟨0, 0, 0⟩
    else ⟨pyOrZero totals.pts / gamesPlayed,
          pyOrZero totals.ast / gamesPlayed,
          pyOrZero totals.reb / gamesPlayed⟩

/-- One game dict built by `get_live_scores` (fixed keys, as a record). -/
structure GameSummary where
  gameId : Val
  homeTeam : Val
  awayTeam : Val
  homeScore : Val
  awayScore : Val
  status : Val

/-- Return payload of `get_live_scores`. -/
structure LiveScoresPayload where
  games : List GameSummary

/-- Processing of a single scoreboard game record.  A non-dict where the
code calls `.get` would raise an uncaught `AttributeError`, modelled by
`Except.error`. -/
def processGame (game : Val) : Except String GameSummary :=
  match game with
  | Val.vDict g =>
    match (rowGet g "homeTeam").getD (Val.vDict []), (rowGet g "awayTeam").getD (Val.vDict []) with
    | Val.vDict homeTeam, Val.vDict awayTeam =>
      Except.ok
        { gameId := (rowGet g "gameId").getD Val.vNone
          homeTeam := (rowGet homeTeam "teamTricode").getD (Val.vStr "N/A")
          awayTeam := (rowGet awayTeam "teamTricode").getD (Val.vStr "N/A")
          homeScore := (rowGet homeTeam "score").getD (Val.vStr "0")
          awayScore := (rowGet awayTeam "score").getD (Val.vStr "0")
          status := (rowGet g "gameStatusText").getD (Val.vStr "Unknown") }
    | _, _ => Except.error "AttributeError"
  | _ => Except.error "AttributeError"

/-- The `for game in games_payload` loop of `get_live_scores`: build the
summaries in provider order, stopping at the first uncaught exception. -/
def processGames : List Val → Except String (List GameSummary)
  | [] => Except.ok []
  | game :: rest =>
    match processGame game with
    | Except.error e => Except.error e
    | Except.ok s =>
      match processGames rest with
      | Except.error e => Except.error e
      | Except.ok ss => Except.ok (s :: ss)

/-- Post-fetch processing of `get_live_scores`, as a function of the
scoreboard's `games` list: each game record is mapped to a `GameSummary`,
preserving provider order. -/
def getLiveScores (gamesPayload : List Val) : Except String LiveScoresPayload :=
  match processGames gamesPayload with
  | Except.error e => Except.error e
  | Except.ok games => Except.ok ⟨games⟩

/-- Worker for Python `str.split()`: split on whitespace runs, dropping
empty pieces; `acc` holds the current word reversed. -/
def pySplitWsAux : List Char → List Char → List (List Char)
  | [], acc => if acc.isEmpty then [] else [acc.reverse]
  | c :: rest, acc =>
    if isPySpace c then
      if acc.isEmpty then pySplitWsAux rest [] else acc.reverse :: pySplitWsAux rest []
    else pySplitWsAux rest (c :: acc)

/-- Python `str.split()` with no separator argument. -/
def pySplitWs (cs : List Char) : List (List Char) :=
  pySplitWsAux cs []

/-- The dispatcher's normalization `" ".join(query.lower().split())`:
lower-case (ASCII fragment of `str.lower`), collapse whitespace runs to
single spaces, trim. -/
def pyNormalize (query : String) : String :=
  String.mk (List.intercalate [' '] (pySplitWs (query.toList.map Char.toLower)))

/-- Whether `pat` is a leading subsequence of `cs` (contiguous). -/
def startsWithChars : List Char → List Char → Bool
  | [], _ => true
  | _ :: _, [] => false
  | p :: ps, c :: cs => p == c && startsWithChars ps cs

/-- Whether `pat` occurs contiguously anywhere in the character list. -/
def hasSubChars (pat : List Char) : List Char → Bool
  | [] => pat.isEmpty
  | c :: rest => startsWithChars pat (c :: rest) || hasSubChars pat rest

/-- Python's substring test `sub in s`. -/
def textContains (s sub : String) : Bool :=
  hasSubChars sub.toList s.toList

/-- Worker for `_extract_first_integer`: scan left to right for the first
maximal run of decimal digits (the regex `(\d+)` search; the subsequent
`int` on an all-digit group never raises). -/
def firstIntAux : List Char → Option Nat
  | [] => none
  | c :: rest =>
    if c.isDigit then some (digitsToNat ((c :: rest).takeWhile Char.isDigit))
    else firstIntAux rest

/-- The helper `_extract_first_integer(text)`. -/
def extractFirstInteger (text : String) : Option Nat :=
  firstIntAux text.toList

/-- One network call performed by a fetcher, recorded in a trace so that
call counts are observable. -/
inductive FetchCall where
  | live : FetchCall
  | team (id : Nat) : FetchCall
  | career (id : Nat) : FetchCall
  | player (id : Nat) : FetchCall
  | props : FetchCall
  deriving DecidableEq

/-- The dispatcher's collaborators: the payload each fetcher would return
on success (the dispatcher composes fetchers; their internals are modelled
separately above). -/
structure Fetchers where
  liveScores : Val
  teamStatistics : Nat → Val
  playerCareerStats : Nat → Val
  playerStatistics : Nat → Val
  propRecommendations : Val

/-- The memoizing `_fallback()` closure of `handle_nba_query`: given the
current value of the `fallback_payload` cell, return the payload, the
updated cell, and the provider calls made. -/
def fallbackFetch (env : Fetchers) : Option Val → Val × Option Val × List FetchCall
  | some p => (p, some p, [])
  | none => (env.propRecommendations, some env.propRecommendations, [FetchCall.props])

/-- The intent dispatcher `handle_nba_query`.  Returns the payload (or the
uncaught `ValueError` as `Except.error`) together with the trace of
fetcher calls.  The `fallback_payload` memo cell starts at `None` on every
invocation; each execution path references `_fallback()` at most once, so
the cell is still `none` at every use site. -/
def handleNbaQuery (env : Fetchers) (query : String) : Except String Val × List FetchCall :=
  let normalized := pyNormalize query
  if !(textContains normalized "nba") then
    (Except.error "Query does not appear to reference the NBA", [])
  else if textContains normalized "live" && textContains normalized "score" then
    (Except.ok env.liveScores, [FetchCall.live])
  else if textContains normalized "team" && textContains normalized "stat" then
    match extractFirstInteger normalized with
    | none =>
      let (fb, _, calls) := fallbackFetch env none
      (Except.ok (Val.vDict [("message", Val.vStr "Team stats requested without an explicit ID."),
        ("recommendations", fb)]), calls)
    | some teamId => (Except.ok (env.teamStatistics teamId), [FetchCall.team teamId])
  else if textContains normalized "player" && textContains normalized "career" then
    match extractFirstInteger normalized with
    | none =>
      let (fb, _, calls) := fallbackFetch env none
      (Except.ok (Val.vDict [("message", Val.vStr "Player career stats requested without an ID."),
        ("recommendations", fb)]), calls)
    | some playerId =>
      (Except.ok (Val.vDict [("playerId", Val.vInt playerId),
        ("careerAverages", env.playerCareerStats playerId)]), [FetchCall.career playerId])
  else if textContains normalized "player" && textContains normalized "stat" then
    match extractFirstInteger normalized with
    | none =>
      let (fb, _, calls) := fallbackFetch env none
      (Except.ok (Val.vDict [("message", Val.vStr "Player stats requested without an ID."),
        ("recommendations", fb)]), calls)
    | some playerId => (Except.ok (env.playerStatistics playerId), [FetchCall.player playerId])
  else if textContains normalized "prop" || textContains normalized "bet"
      || textContains normalized "odds" then
    let (fb, _, calls) := fallbackFetch env none
    (Except.ok fb, calls)
  else
    let (fb, _, calls) := fallbackFetch env none
    (Except.ok fb, calls)

/-- Routing function transcribed from the words of claim C1 (the spec's
fixed priority order with first-match-wins semantics), to be compared with
the dispatcher; its last two rules (`prop`/`bet`/`odds` and the catch-all)
both return the prop fallback payload, hence the single trailing `else`. -/
def claimRouting (env : Fetchers) (n : String) : Val :=
  if textContains n "live" && textContains n "score" then env.liveScores
  else if textContains n "team" && textContains n "stat" then
    match extractFirstInteger n with
    | some teamId => env.teamStatistics teamId
    | none => Val.vDict [("message", Val.vStr "Team stats requested without an explicit ID."),
        ("recommendations", env.propRecommendations)]
  else if textContains n "player" && textContains n "career" then
    match extractFirstInteger n with
    | some playerId => Val.vDict [("playerId", Val.vInt playerId),
        ("careerAverages", env.playerCareerStats playerId)]
    | none => Val.vDict [("message", Val.vStr "Player career stats requested without an ID."),
        ("recommendations", env.propRecommendations)]
  else if textContains n "player" && textContains n "stat" then
    match extractFirstInteger n with
    | some playerId => env.playerStatistics playerId
    | none => Val.vDict [("message", Val.vStr "Player stats requested without an ID."),
        ("recommendations", env.propRecommendations)]
  else env.propRecommendations

instance propPrec_trans : IsTrans PlayerRow propPrec := by
  constructor
  intro a b c hab hbc
  unfold propPrec at *
  rcases hab with h1 | ⟨e1, h1⟩ <;> rcases hbc with h2 | ⟨e2, h2⟩
  · exact Or.inl (lt_trans h2 h1)
  · exact Or.inl (by rw [← e2]; exact h1)
  · exact Or.inl (by rw [e1]; exact h2)
  · refine Or.inr ⟨e1.trans e2, ?_⟩
    rcases h1 with g1 | ⟨f1, g1⟩ <;> rcases h2 with g2 | ⟨f2, g2⟩
    · exact Or.inl (lt_trans g2 g1)
    · exact Or.inl (by rw [← f2]; exact g1)
    · exact Or.inl (by rw [f1]; exact g2)
    · exact Or.inr ⟨f1.trans f2, le_trans g2 g1⟩

instance propPrec_total : IsTotal PlayerRow propPrec := by
  constructor
  intro a b
  unfold propPrec
  rcases lt_trichotomy a.pts b.pts with h | h | h
  · exact Or.inr (Or.inl h)
  · rcases lt_trichotomy a.reb b.reb with h' | h' | h'
    · exact Or.inr (Or.inr ⟨h.symm, Or.inl h'⟩)
    · rcases le_total b.ast a.ast with h'' | h''
      · exact Or.inl (Or.inr ⟨h, Or.inr ⟨h', h''⟩⟩)
      · exact Or.inr (Or.inr ⟨h.symm, Or.inr ⟨h'.symm, h''⟩⟩)
    · exact Or.inl (Or.inr ⟨h, Or.inl h'⟩)
  · exact Or.inl (Or.inl h)

/-- The `sort_values` ordering transported to emitted recommendations:
points descending, then rebounds descending, then assists descending. -/
def recPrec (a b : PropRecommendation) : Prop :=
  b.points < a.points ∨ (a.points = b.points ∧ (b.rebounds < a.rebounds ∨
    (a.rebounds = b.rebounds ∧ b.assists ≤ a.assists)))

/-- The three sort-key columns of a data-frame row. -/
def rowStatKey (r : PlayerRow) : Rat × Rat × Rat :=
  (r.pts, r.reb, r.ast)

/-- The three sort-key fields of an emitted recommendation. -/
def recKey (r : PropRecommendation) : Rat × Rat × Rat :=
  (r.points, r.rebounds, r.assists)

/-- A sample collaborator environment for exercising the dispatcher on
concrete queries. -/
def sampleEnv : Fetchers where
  liveScores := Val.vStr "live-scores-payload"
  teamStatistics := fun id => Val.vDict [("teamId", Val.vInt id)]
  playerCareerStats := fun id => Val.vDict [("ppg", Val.vInt id)]
  playerStatistics := fun id => Val.vDict [("playerId", Val.vInt id)]
  propRecommendations := Val.vStr "prop-recommendations-payload"

/-- The trace of fetcher calls the dispatcher performs, by routing rule:
every execution path performs exactly one fetcher call (the fallback is
memoized and referenced at most once per path). -/
def claimTrace (n : String) : List FetchCall :=
  if textContains n "live" && textContains n "score" then [FetchCall.live]
  else if textContains n "team" && textContains n "stat" then
    match extractFirstInteger n with
    | some i => [FetchCall.team i]
    | none => [FetchCall.props]
  else if textContains n "player" && textContains n "career" then
    match extractFirstInteger n with
    | some i => [FetchCall.career i]
    | none => [FetchCall.props]
  else if textContains n "player" && textContains n "stat" then
    match extractFirstInteger n with
    | some i => [FetchCall.player i]
    | none => [FetchCall.props]
  else [FetchCall.props]

theorem lookup_extractFields (row : RawRow) {mapping : List (String × String × Caster × Val)}
    {key src : String} {c : Caster} {d : Val}
    (hnd : (mapping.map (fun e => e.1)).Nodup)
    (hmem : (key, src, c, d) ∈ mapping) :
    List.lookup key (extractFields row mapping) = some (extractOne row src c d) := by
  induction mapping with
  | nil => cases hmem
  | cons e rest ih =>
    obtain ⟨k', s', c', d'⟩ := e
    rcases List.mem_cons.mp hmem with heq | hmem'
    · cases heq
      simp [extractFields, List.lookup]
    · have hk : (key == k') = false := by
        apply beq_eq_false_iff_ne.mpr
        intro h
        subst h
        exact (List.nodup_cons.mp hnd).1 (List.mem_map.mpr ⟨_, hmem', rfl⟩)
      have hnd' : (rest.map (fun e => e.1)).Nodup := (List.nodup_cons.mp hnd).2
      simpa [extractFields, List.lookup, hk] using ih hnd' hmem'

theorem extractOne_of_dflt_fixed {row : RawRow} {src : String} {c : Caster} {d : Val}
    (hdflt : pyCast c d = some d)
    (h : rowGet row src = none ∨ rowGet row src = some Val.vNone ∨
      (∃ v, rowGet row src = some v ∧ pyCast c v = none)) :
    extractOne row src c d = d := by
  unfold extractOne
  rcases h with h | h | ⟨v, hv, hc⟩
  · simp [h, hdflt]
  · simp [h, Val.isNone, hdflt]
  · rw [hv]
    cases hvn : v.isNone <;> simp [hvn, hc, hdflt]

theorem teamFieldMapping_dflt_cast {key src : String} {c : Caster} {d : Val}
    (h : (key, src, c, d) ∈ teamFieldMapping) : pyCast c d = some d := by
  simp only [teamFieldMapping, List.mem_cons, List.not_mem_nil, or_false,
    Prod.mk.injEq] at h
  rcases h with h | h | h | h | h | h | h | h | h | h <;>
    · obtain ⟨-, -, rfl, rfl⟩ := h
      rfl

theorem playerFieldMapping_dflt_cast {key src : String} {c : Caster} {d : Val}
    (h : (key, src, c, d) ∈ playerFieldMapping) : pyCast c d = some d := by
  simp only [playerFieldMapping, List.mem_cons, List.not_mem_nil, or_false,
    Prod.mk.injEq] at h
  rcases h with h | h | h | h | h | h | h | h | h | h <;>
    · obtain ⟨-, -, rfl, rfl⟩ := h
      rfl

/-- C2 (corrected).  The field projector is total: for every row and
spec with distinct output keys, every declared output key is present in the
result.  When the source field is absent or null the output is the declared
default passed through the cast (`caster(default)`), so it equals `d'`
whenever `pyCast c d = some d'`; when a present value fails the cast the
output is the declared default verbatim. -/
theorem c2_field_projector_totality {row : RawRow}
    {mapping : List (String × String × Caster × Val)} {key src : String} {c : Caster} {d : Val}
    (hnd : (mapping.map (fun e => e.1)).Nodup)
    (hmem : (key, src, c, d) ∈ mapping) :
    (∃ v, List.lookup key (extractFields row mapping) = some v) ∧
    (∀ d', pyCast c d = some d' →
      rowGet row src = none ∨ rowGet row src = some Val.vNone →
      List.lookup key (extractFields row mapping) = some d') ∧
    (∀ v, rowGet row src = some v → v.isNone = false → pyCast c v = none →
      List.lookup key (extractFields row mapping) = some d) := by
  have hl := lookup_extractFields row hnd hmem
  refine ⟨⟨_, hl⟩, ?_, ?_⟩
  · intro d' hd' habs
    rw [hl]
    unfold extractOne
    rcases habs with h | h
    · simp [h, hd']
    · simp [h, Val.isNone, hd']
  · intro v hv hvn hc
    rw [hl]
    unfold extractOne
    simp [hv, hvn, hc]

/-- C2 counterexample: the claim as stated fails when the declared default
is castable but not of the target type.  With default `"5"` (castable to
`int`) and an absent source field, the output is `int("5") = 5`, not the
declared default `"5"`. -/
theorem c2_field_projector_cex :
    pyCast Caster.int (Val.vStr "5") = some (Val.vInt 5) ∧
    List.lookup "x" (extractFields [] [("x", "X", Caster.int, Val.vStr "5")]) =
      some (Val.vInt 5) ∧
    Val.vInt 5 ≠ Val.vStr "5" :=
  ⟨rfl, rfl, fun h => Val.noConfusion h⟩

/-- C2 witness: a present value that fails the float cast degrades to the
declared default. -/
theorem c2_field_projector_witness :
    List.lookup "points" (extractFields [("PTS", Val.vStr "bad")] playerFieldMapping) =
      some (Val.vFloat 0) :=
  (c2_field_projector_totality (by decide) (List.mem_cons_self _ _)).2.2
    (Val.vStr "bad") rfl rfl rfl

/-- C5 (corrected).  When the coalesced games-played value is castable to
int, both dashboard fetchers complete, report that games-played value, and
every projected field whose source is absent, null, or fails its cast
degrades to the declared default.  (The games-played extraction itself is
not protected: a truthy uncastable `GP` raises, see the counterexample.) -/
theorem c5_stats_field_degradation (teamId playerId : Int) (season perMode : String)
    (row : RawRow) (rest : List RawRow) (gp : Int)
    (hgp : gamesPlayedOf row = some gp) :
    (∃ p, getTeamStatistics teamId season perMode (row :: rest) = Except.ok p ∧
      p.gamesPlayed = gp ∧
      ∀ key src c d, (key, src, c, d) ∈ teamFieldMapping →
        (rowGet row src = none ∨ rowGet row src = some Val.vNone ∨
          (∃ v, rowGet row src = some v ∧ pyCast c v = none)) →
        List.lookup key p.averages = some d) ∧
    (∃ p, getPlayerStatistics playerId season perMode (row :: rest) = Except.ok p ∧
      p.gamesPlayed = gp ∧
      ∀ key src c d, (key, src, c, d) ∈ playerFieldMapping →
        (rowGet row src = none ∨ rowGet row src = some Val.vNone ∨
          (∃ v, rowGet row src = some v ∧ pyCast c v = none)) →
        List.lookup key p.averages = some d) := by
  constructor
  · refine ⟨⟨teamId, season, perMode, gp, extractFields row teamFieldMapping⟩,
      by simp [getTeamStatistics, hgp], rfl, ?_⟩
    intro key src c d hmem hcase
    have hl := lookup_extractFields row (by decide) hmem
    rw [hl, extractOne_of_dflt_fixed (teamFieldMapping_dflt_cast hmem) hcase]
  · refine ⟨⟨playerId, season, perMode, gp, extractFields row playerFieldMapping⟩,
      by simp [getPlayerStatistics, hgp], rfl, ?_⟩
    intro key src c d hmem hcase
    have hl := lookup_extractFields row (by decide) hmem
    rw [hl, extractOne_of_dflt_fixed (playerFieldMapping_dflt_cast hmem) hcase]

/-- C5 counterexample: a truthy games-played value that `int` cannot cast
(the string `"abc"`) aborts both operations with an exception instead of
degrading to the declared default 0. -/
theorem c5_stats_field_degradation_cex :
    getTeamStatistics 1 "2023-24" "PerGame" [[("GP", Val.vStr "abc")]] =
      Except.error "int() raised converting GP" ∧
    getPlayerStatistics 2 "2023-24" "PerGame" [[("GP", Val.vStr "abc")]] =
      Except.error "int() raised converting GP" :=
  ⟨rfl, rfl⟩

/-- C5 witness: a castable games-played value together with a malformed
projected field. -/
theorem c5_stats_field_degradation_witness :
    gamesPlayedOf [("GP", Val.vInt 12), ("PTS", Val.vStr "bad"), ("W", Val.vNone)] =
      some 12 ∧
    ((∃ p, getTeamStatistics 7 "2023-24" "PerGame"
        [[("GP", Val.vInt 12), ("PTS", Val.vStr "bad"), ("W", Val.vNone)]] = Except.ok p ∧
      p.gamesPlayed = 12 ∧
      ∀ key src c d, (key, src, c, d) ∈ teamFieldMapping →
        (rowGet [("GP", Val.vInt 12), ("PTS", Val.vStr "bad"), ("W", Val.vNone)] src = none ∨
          rowGet [("GP", Val.vInt 12), ("PTS", Val.vStr "bad"), ("W", Val.vNone)] src =
            some Val.vNone ∨
          (∃ v, rowGet [("GP", Val.vInt 12), ("PTS", Val.vStr "bad"), ("W", Val.vNone)] src =
            some v ∧ pyCast c v = none)) →
        List.lookup key p.averages = some d) ∧
    (∃ p, getPlayerStatistics 9 "2023-24" "PerGame"
        [[("GP", Val.vInt 12), ("PTS", Val.vStr "bad"), ("W", Val.vNone)]] = Except.ok p ∧
      p.gamesPlayed = 12 ∧
      ∀ key src c d, (key, src, c, d) ∈ playerFieldMapping →
        (rowGet [("GP", Val.vInt 12), ("PTS", Val.vStr "bad"), ("W", Val.vNone)] src = none ∨
          rowGet [("GP", Val.vInt 12), ("PTS", Val.vStr "bad"), ("W", Val.vNone)] src =
            some Val.vNone ∨
          (∃ v, rowGet [("GP", Val.vInt 12), ("PTS", Val.vStr "bad"), ("W", Val.vNone)] src =
            some v ∧ pyCast c v = none)) →
        List.lookup key p.averages = some d)) :=
  ⟨rfl, c5_stats_field_degradation 7 9 "2023-24" "PerGame"
    [("GP", Val.vInt 12), ("PTS", Val.vStr "bad"), ("W", Val.vNone)] [] 12 rfl⟩

theorem filter_orderedInsert_ties {α : Type} {r : α → α → Prop} [DecidableRel r]
    (p : α → Bool) (x : α) (hx : ∀ b, p b = true → p x = true → r x b) :
    ∀ s : List α, (s.orderedInsert r x).filter p =
      if p x then x :: s.filter p else s.filter p := by
  intro s
  induction s with
  | nil =>
    cases hpx : p x <;> simp [List.orderedInsert, List.filter, hpx]
  | cons b t ih =>
    rw [List.orderedInsert]
    by_cases hr : r x b
    · rw [if_pos hr]
      cases hpx : p x <;> simp [List.filter_cons, hpx]
    · rw [if_neg hr]
      cases hpb : p b
      · simp [List.filter_cons, hpb, ih]
      · have hpx : p x = false := by
          cases hpx : p x
          · rfl
          · exact absurd (hx b hpb hpx) hr
        simp [List.filter_cons, hpb, hpx, ih]

theorem filter_insertionSort_ties {α : Type} {r : α → α → Prop} [DecidableRel r]
    (p : α → Bool) (hp : ∀ a b, p a = true → p b = true → r a b) :
    ∀ l : List α, (l.insertionSort r).filter p = l.filter p := by
  intro l
  induction l with
  | nil => rfl
  | cons x t ih =>
    rw [List.insertionSort, filter_orderedInsert_ties p x (fun b hb hxx => hp x b hxx hb)]
    cases hpx : p x <;> simp [List.filter_cons, hpx, ih]

theorem pandasHead_sublist {α : Type} (n : Int) (l : List α) :
    List.Sublist (pandasHead n l) l := by
  unfold pandasHead
  split <;> exact List.take_sublist _ _

theorem ties_propPrec {k : Rat × Rat × Rat} {a b : PlayerRow}
    (ha : (rowStatKey a == k) = true) (hb : (rowStatKey b == k) = true) :
    propPrec a b := by
  have ha' : rowStatKey a = k := beq_iff_eq.mp ha
  have hb' : rowStatKey b = k := beq_iff_eq.mp hb
  have h := ha'.trans hb'.symm
  unfold rowStatKey at h
  simp only [Prod.mk.injEq] at h
  obtain ⟨h1, h2, h3⟩ := h
  exact Or.inr ⟨h1, Or.inr ⟨h2, le_of_eq h3.symm⟩⟩

/-- C3 (confirmed).  For a non-empty frame the emitted players are ordered
by points descending, then rebounds descending, then assists descending
(`recPrec` pairwise), and the sort is stable: rows equal on all three
sort-key fields keep their original provider order — the sorted frame
filtered to any key triple equals the provider-order filter, and the
emitted (possibly truncated) list's tied recommendations form an in-order
subsequence of the provider-order ones. -/
theorem c3_prop_ranking_stable_order (season perMode : String) (limit : Int)
    (frame : List PlayerRow) (hne : frame ≠ []) :
    ((getPlayerPropRecommendations season perMode limit frame).players).Pairwise recPrec ∧
    (∀ k : Rat × Rat × Rat,
      (List.insertionSort propPrec frame).filter (fun r => rowStatKey r == k) =
        frame.filter (fun r => rowStatKey r == k) ∧
      List.Sublist
        (((getPlayerPropRecommendations season perMode limit frame).players).filter
          (fun r => recKey r == k))
        ((frame.map mkRecommendation).filter (fun r => recKey r == k))) := by
  have hemp : frame.isEmpty = false := by
    cases frame
    · exact absurd rfl hne
    · rfl
  have hplayers : (getPlayerPropRecommendations season perMode limit frame).players =
      (pandasHead limit (List.insertionSort propPrec frame)).map mkRecommendation := by
    unfold getPlayerPropRecommendations
    simp [hemp]
  constructor
  · rw [hplayers]
    have hs : (List.insertionSort propPrec frame).Pairwise propPrec :=
      List.sorted_insertionSort propPrec frame
    have hp := List.Pairwise.sublist (pandasHead_sublist limit _) hs
    exact List.Pairwise.map _ (fun a b h => h) hp
  · intro k
    have hstab := filter_insertionSort_ties (fun r => rowStatKey r == k)
      (fun a b ha hb => ties_propPrec ha hb) frame
    refine ⟨hstab, ?_⟩
    rw [hplayers, List.filter_map, List.filter_map]
    apply List.Sublist.map
    have he : ((fun r => recKey r == k) ∘ mkRecommendation) =
        (fun r => rowStatKey r == k) := rfl
    rw [he]
    have h1 := List.Sublist.filter (fun r => rowStatKey r == k)
      (pandasHead_sublist limit (List.insertionSort propPrec frame))
    rw [hstab] at h1
    exact h1

/-- C3 witness: the spec's example frame (20,5,5), (25,1,1), (20,8,2). -/
theorem c3_prop_ranking_stable_order_witness :
    ((getPlayerPropRecommendations "2023-24" "PerGame" 5
      [⟨1, "a", 0, "", 20, 5, 5, 0⟩, ⟨2, "b", 0, "", 25, 1, 1, 0⟩,
       ⟨3, "c", 0, "", 20, 8, 2, 0⟩]).players).Pairwise recPrec :=
  (c3_prop_ranking_stable_order "2023-24" "PerGame" 5
    [⟨1, "a", 0, "", 20, 5, 5, 0⟩, ⟨2, "b", 0, "", 25, 1, 1, 0⟩,
     ⟨3, "c", 0, "", 20, 8, 2, 0⟩] (by simp)).1

/-- C4 (corrected).  A zero limit yields an empty players list, but a
negative limit follows the pandas `head`/slice semantics: it keeps all
sorted rows except the last `|limit|` (empty only when `|limit|` is at
least the row count). -/
theorem c4_nonpositive_limit (season perMode : String) (frame : List PlayerRow)
    (limit : Int) (hlim : limit ≤ 0) :
    (limit = 0 → (getPlayerPropRecommendations season perMode limit frame).players = []) ∧
    (limit < 0 → (getPlayerPropRecommendations season perMode limit frame).players.length =
      frame.length - (-limit).toNat) := by
  constructor
  · rintro rfl
    unfold getPlayerPropRecommendations
    cases hemp : frame.isEmpty <;> simp [pandasHead]
  · intro hneg
    unfold getPlayerPropRecommendations
    cases hemp : frame.isEmpty
    · have hnot : ¬ (0 : Int) ≤ limit := not_le.mpr hneg
      simp [pandasHead, hnot, List.length_insertionSort]
    · have hfr : frame = [] := by
        cases frame
        · rfl
        · simp [List.isEmpty] at hemp
      subst hfr
      simp

/-- C4 counterexample: with two provider rows and `limit = -1`, the players
list is not empty (pandas `head(-1)` keeps all but the last row). -/
theorem c4_nonpositive_limit_cex :
    (getPlayerPropRecommendations "2023-24" "PerGame" (-1)
      [⟨1, "a", 0, "", 20, 5, 5, 0⟩, ⟨2, "b", 0, "", 25, 1, 1, 0⟩]).players.length = 1 ∧
    (getPlayerPropRecommendations "2023-24" "PerGame" (-1)
      [⟨1, "a", 0, "", 20, 5, 5, 0⟩, ⟨2, "b", 0, "", 25, 1, 1, 0⟩]).players ≠ [] :=
  ⟨rfl, by decide⟩

/-- C4 witness: a zero limit with a non-empty provider result. -/
theorem c4_nonpositive_limit_witness :
    (getPlayerPropRecommendations "2023-24" "PerGame" 0
      [⟨1, "a", 0, "", 20, 5, 5, 0⟩]).players = [] :=
  (c4_nonpositive_limit "2023-24" "PerGame" [⟨1, "a", 0, "", 20, 5, 5, 0⟩] 0
    le_rfl).1 rfl

/-- C8 (confirmed).  Every emitted recommendation's propScore is
`round(points + 0.75*rebounds + 0.75*assists, 2)` (on the rational model
of floats, with Python's round-half-to-even); in particular 30/10/8 gives
43.5. -/
theorem c8_prop_score_formula (season perMode : String) (limit : Int)
    (frame : List PlayerRow) (rec : PropRecommendation)
    (hmem : rec ∈ (getPlayerPropRecommendations season perMode limit frame).players) :
    rec.propScore = pyRound2 (rec.points + rec.rebounds * (3 / 4) + rec.assists * (3 / 4)) ∧
    pyRound2 (30 + 10 * (3 / 4) + 8 * (3 / 4)) = 87 / 2 := by
  constructor
  · unfold getPlayerPropRecommendations at hmem
    cases hemp : frame.isEmpty
    · simp only [hemp, Bool.false_eq_true, if_false] at hmem
      obtain ⟨row, -, rfl⟩ := List.mem_map.mp hmem
      rfl
    · simp [hemp] at hmem
  · have h1 : ((30 : Rat) + 10 * (3 / 4) + 8 * (3 / 4)) * 100 = ((4350 : Int) : Rat) := by
      norm_num
    have h2 : roundHalfEven ((4350 : Int) : Rat) = 4350 := by
      unfold roundHalfEven
      rw [Int.floor_intCast]
      norm_num
    rw [pyRound2, h1, h2]
    norm_num

/-- C8 witness: a singleton frame with points 30, rebounds 10, assists 8. -/
theorem c8_prop_score_formula_witness :
    mkRecommendation ⟨1, "x", 2, "T", 30, 10, 8, 0⟩ ∈
      (getPlayerPropRecommendations "2023-24" "PerGame" 5
        [⟨1, "x", 2, "T", 30, 10, 8, 0⟩]).players ∧
    ((mkRecommendation ⟨1, "x", 2, "T", 30, 10, 8, 0⟩).propScore =
      pyRound2 ((mkRecommendation ⟨1, "x", 2, "T", 30, 10, 8, 0⟩).points +
        (mkRecommendation ⟨1, "x", 2, "T", 30, 10, 8, 0⟩).rebounds * (3 / 4) +
        (mkRecommendation ⟨1, "x", 2, "T", 30, 10, 8, 0⟩).assists * (3 / 4)) ∧
      pyRound2 (30 + 10 * (3 / 4) + 8 * (3 / 4)) = 87 / 2) :=
  ⟨List.mem_singleton.mpr rfl, c8_prop_score_formula "2023-24" "PerGame" 5
    [⟨1, "x", 2, "T", 30, 10, 8, 0⟩] (mkRecommendation ⟨1, "x", 2, "T", 30, 10, 8, 0⟩)
    (List.mem_singleton.mpr rfl)⟩

/-- C6 (confirmed).  On a non-empty career table the selected row is the
first one labelled `"Career"`, falling back to the last row in provider
order; a non-positive games-played value yields all-zero averages
regardless of the other fields, and otherwise the totals are divided by
games played. -/
theorem c6_career_selection (table : List CareerRow) (hne : table ≠ []) :
    getPlayerCareerStats table =
      (match table.filter (fun r => r.seasonId == "Career") with
       | c :: _ =>
         if c.gp ≤ 0 then ⟨0, 0, 0⟩ else ⟨c.pts / c.gp, c.ast / c.gp, c.reb / c.gp⟩
       | [] =>
         if (table.getLast hne).gp ≤ 0 then ⟨0, 0, 0⟩
         else ⟨(table.getLast hne).pts / (table.getLast hne).gp,
               (table.getLast hne).ast / (table.getLast hne).gp,
               (table.getLast hne).reb / (table.getLast hne).gp⟩) := by
  have hz : ∀ x : Rat, pyOrZero x = x := by
    intro x
    by_cases h : x = 0 <;> simp [pyOrZero, h]
  cases table with
  | nil => exact absurd rfl hne
  | cons r rs =>
    unfold getPlayerCareerStats
    simp only [hz]
    cases hf : (r :: rs).filter (fun row => row.seasonId == "Career") with
    | cons c cs => simp [hf]
    | nil => simp [hf]

/-- C6 witness: no `"Career"`-labelled row, so the last row governs; its
zero games-played yields all-zero averages despite nonzero totals. -/
theorem c6_career_selection_witness :
    ([⟨"2022-23", 2, 10, 4, 6⟩, ⟨"2023-24", 0, 99, 99, 99⟩] : List CareerRow) ≠ [] ∧
    getPlayerCareerStats [⟨"2022-23", 2, 10, 4, 6⟩, ⟨"2023-24", 0, 99, 99, 99⟩] = ⟨0, 0, 0⟩ :=
  ⟨by simp,
    (c6_career_selection [⟨"2022-23", 2, 10, 4, 6⟩, ⟨"2023-24", 0, 99, 99, 99⟩]
      (by simp)).trans rfl⟩

/-- C10 (confirmed).  For every game record, whenever the home team
mapping lacks a `score` field the emitted summary's `homeScore` is the
string `"0"`, and independently whenever the away team mapping lacks a
`score` field the emitted `awayScore` is `"0"` — with no assumption on
the other side. -/
theorem c10_missing_score_default (g homeTeam awayTeam : RawRow)
    (hh : (rowGet g "homeTeam").getD (Val.vDict []) = Val.vDict homeTeam)
    (ha : (rowGet g "awayTeam").getD (Val.vDict []) = Val.vDict awayTeam) :
    ∃ s, processGame (Val.vDict g) = Except.ok s ∧
      getLiveScores [Val.vDict g] = Except.ok ⟨[s]⟩ ∧
      (rowGet homeTeam "score" = none → s.homeScore = Val.vStr "0") ∧
      (rowGet awayTeam "score" = none → s.awayScore = Val.vStr "0") := by
  have hpg : processGame (Val.vDict g) = Except.ok
      ⟨(rowGet g "gameId").getD Val.vNone,
       (rowGet homeTeam "teamTricode").getD (Val.vStr "N/A"),
       (rowGet awayTeam "teamTricode").getD (Val.vStr "N/A"),
       (rowGet homeTeam "score").getD (Val.vStr "0"),
       (rowGet awayTeam "score").getD (Val.vStr "0"),
       (rowGet g "gameStatusText").getD (Val.vStr "Unknown")⟩ := by
    simp only [processGame]
    rw [hh, ha]
  refine ⟨_, hpg, by simp [getLiveScores, processGames, hpg], ?_, ?_⟩
  · intro h
    simp [h]
  · intro h
    simp [h]

/-- C10 witness: the home team lacks a score while the away team has one,
exercising the two sides independently. -/
theorem c10_missing_score_default_witness :
    ((rowGet [("gameId", Val.vStr "0012300001"),
        ("homeTeam", Val.vDict [("teamTricode", Val.vStr "LAL")]),
        ("awayTeam", Val.vDict [("teamTricode", Val.vStr "BOS"), ("score", Val.vInt 55)]),
        ("gameStatusText", Val.vStr "Q1")] "homeTeam").getD (Val.vDict []) =
      Val.vDict [("teamTricode", Val.vStr "LAL")]) ∧
    ((rowGet [("gameId", Val.vStr "0012300001"),
        ("homeTeam", Val.vDict [("teamTricode", Val.vStr "LAL")]),
        ("awayTeam", Val.vDict [("teamTricode", Val.vStr "BOS"), ("score", Val.vInt 55)]),
        ("gameStatusText", Val.vStr "Q1")] "awayTeam").getD (Val.vDict []) =
      Val.vDict [("teamTricode", Val.vStr "BOS"), ("score", Val.vInt 55)]) ∧
    (∃ s, processGame (Val.vDict [("gameId", Val.vStr "0012300001"),
        ("homeTeam", Val.vDict [("teamTricode", Val.vStr "LAL")]),
        ("awayTeam", Val.vDict [("teamTricode", Val.vStr "BOS"), ("score", Val.vInt 55)]),
        ("gameStatusText", Val.vStr "Q1")]) = Except.ok s ∧
      getLiveScores [Val.vDict [("gameId", Val.vStr "0012300001"),
        ("homeTeam", Val.vDict [("teamTricode", Val.vStr "LAL")]),
        ("awayTeam", Val.vDict [("teamTricode", Val.vStr "BOS"), ("score", Val.vInt 55)]),
        ("gameStatusText", Val.vStr "Q1")]] = Except.ok ⟨[s]⟩ ∧
      (rowGet [("teamTricode", Val.vStr "LAL")] "score" = none →
        s.homeScore = Val.vStr "0") ∧
      (rowGet [("teamTricode", Val.vStr "BOS"), ("score", Val.vInt 55)] "score" = none →
        s.awayScore = Val.vStr "0")) :=
  ⟨rfl, rfl, c10_missing_score_default _ [("teamTricode", Val.vStr "LAL")]
    [("teamTricode", Val.vStr "BOS"), ("score", Val.vInt 55)] rfl rfl⟩

theorem handleNbaQuery_not_nba (env : Fetchers) (query : String)
    (h : textContains (pyNormalize query) "nba" = false) :
    handleNbaQuery env query =
      (Except.error "Query does not appear to reference the NBA", []) := by
  unfold handleNbaQuery
  simp [h]

theorem handleNbaQuery_closed_form (env : Fetchers) (query : String)
    (hnba : textContains (pyNormalize query) "nba" = true) :
    handleNbaQuery env query =
      (Except.ok (claimRouting env (pyNormalize query)), claimTrace (pyNormalize query)) := by
  unfold handleNbaQuery claimRouting claimTrace
  cases h1 : textContains (pyNormalize query) "live" && textContains (pyNormalize query) "score"
  · cases h2 : textContains (pyNormalize query) "team" && textContains (pyNormalize query) "stat"
    · cases h3 : textContains (pyNormalize query) "player" &&
          textContains (pyNormalize query) "career"
      · cases h4 : textContains (pyNormalize query) "player" &&
            textContains (pyNormalize query) "stat"
        · cases h5 : textContains (pyNormalize query) "prop" ||
              textContains (pyNormalize query) "bet" || textContains (pyNormalize query) "odds" <;>
            simp [hnba, h1, h2, h3, h4, h5, fallbackFetch]
        · cases he : extractFirstInteger (pyNormalize query) <;>
            simp [hnba, h1, h2, h3, h4, he, fallbackFetch]
      · cases he : extractFirstInteger (pyNormalize query) <;>
          simp [hnba, h1, h2, h3, he, fallbackFetch]
    · cases he : extractFirstInteger (pyNormalize query) <;>
        simp [hnba, h1, h2, he, fallbackFetch]
  · simp [hnba, h1]

theorem claimTrace_length (n : String) : (claimTrace n).length = 1 := by
  unfold claimTrace
  split_ifs <;> try rfl
  all_goals cases extractFirstInteger n <;> rfl

/-- C1 (confirmed).  For every query whose normalization contains "nba",
the dispatcher's payload is exactly the one prescribed by the fixed
priority order with first-match-wins semantics (`claimRouting`, transcribed
from the claim). -/
theorem c1_dispatcher_routing (env : Fetchers) (query : String)
    (hnba : textContains (pyNormalize query) "nba" = true) :
    (handleNbaQuery env query).1 = Except.ok (claimRouting env (pyNormalize query)) := by
  rw [handleNbaQuery_closed_form env query hnba]

/-- C1 witness: the spec's live-scores example query. -/
theorem c1_dispatcher_routing_witness :
    textContains (pyNormalize "NBA live scores please") "nba" = true ∧
    (handleNbaQuery sampleEnv "NBA live scores please").1 =
      Except.ok (claimRouting sampleEnv (pyNormalize "NBA live scores please")) :=
  ⟨rfl, c1_dispatcher_routing sampleEnv "NBA live scores please" rfl⟩

/-- C7 (confirmed).  The dispatcher fails exactly when the normalized text
lacks the substring "nba"; in that case the error is the single validation
message and the fetcher-call trace is empty; otherwise the dispatcher
itself produces no failure. -/
theorem c7_query_error_iff (env : Fetchers) (query : String) :
    (textContains (pyNormalize query) "nba" = false →
      handleNbaQuery env query =
        (Except.error "Query does not appear to reference the NBA", [])) ∧
    (textContains (pyNormalize query) "nba" = true →
      ∃ v, (handleNbaQuery env query).1 = Except.ok v) := by
  constructor
  · exact handleNbaQuery_not_nba env query
  · intro h
    exact ⟨_, by rw [handleNbaQuery_closed_form env query h]⟩

/-- C7 witness: the spec's non-NBA example query. -/
theorem c7_query_error_iff_witness :
    textContains (pyNormalize "basketball update") "nba" = false ∧
    handleNbaQuery sampleEnv "basketball update" =
      (Except.error "Query does not appear to reference the NBA", []) :=
  ⟨rfl, (c7_query_error_iff sampleEnv "basketball update").1 rfl⟩

/-- C9 (confirmed).  The prop-recommendations fetcher is called at most
once per dispatch, and not at all on the live-scores route or on an
id-requiring route when an identifier is present. -/
theorem c9_fallback_single_call (env : Fetchers) (query : String) :
    (handleNbaQuery env query).2.count FetchCall.props ≤ 1 ∧
    ((textContains (pyNormalize query) "live" &&
        textContains (pyNormalize query) "score") = true →
      (handleNbaQuery env query).2.count FetchCall.props = 0) ∧
    (∀ i, extractFirstInteger (pyNormalize query) = some i →
      ((textContains (pyNormalize query) "team" &&
          textContains (pyNormalize query) "stat") = true ∨
       (textContains (pyNormalize query) "player" &&
          textContains (pyNormalize query) "career") = true ∨
       (textContains (pyNormalize query) "player" &&
          textContains (pyNormalize query) "stat") = true) →
      (handleNbaQuery env query).2.count FetchCall.props = 0) := by
  cases hnba : textContains (pyNormalize query) "nba"
  · rw [handleNbaQuery_not_nba env query hnba]
    exact ⟨by simp, fun _ => by simp, fun i _ _ => by simp⟩
  · rw [handleNbaQuery_closed_form env query hnba]
    refine ⟨?_, ?_, ?_⟩
    · exact le_trans (List.count_le_length _ _) (le_of_eq (claimTrace_length _))
    · intro h1
      have ht : claimTrace (pyNormalize query) = [FetchCall.live] := by
        simp [claimTrace, h1]
      rw [ht]
      rfl
    · intro i he hdis
      cases h1 : textContains (pyNormalize query) "live" &&
          textContains (pyNormalize query) "score"
      · cases h2 : textContains (pyNormalize query) "team" &&
            textContains (pyNormalize query) "stat"
        · cases h3 : textContains (pyNormalize query) "player" &&
              textContains (pyNormalize query) "career"
          · cases h4 : textContains (pyNormalize query) "player" &&
                textContains (pyNormalize query) "stat"
            · rcases hdis with h | h | h <;> simp_all
            · have ht : claimTrace (pyNormalize query) = [FetchCall.player i] := by
                simp [claimTrace, h1, h2, h3, h4, he]
              rw [ht]
              rfl
          · have ht : claimTrace (pyNormalize query) = [FetchCall.career i] := by
              simp [claimTrace, h1, h2, h3, he]
            rw [ht]
            rfl
        · have ht : claimTrace (pyNormalize query) = [FetchCall.team i] := by
            simp [claimTrace, h1, h2, he]
          rw [ht]
          rfl
      · have ht : claimTrace (pyNormalize query) = [FetchCall.live] := by
          simp [claimTrace, h1]
        rw [ht]
        rfl

/-- C9 witness: the spec's team-stats query with an explicit identifier
performs no prop-recommendations call. -/
theorem c9_fallback_single_call_witness :
    extractFirstInteger (pyNormalize "nba team stats for 1610612744") = some 1610612744 ∧
    (handleNbaQuery sampleEnv "nba team stats for 1610612744").2.count FetchCall.props = 0 :=
  ⟨rfl, (c9_fallback_single_call sampleEnv "nba team stats for 1610612744").2.2
    1610612744 rfl (Or.inl rfl)⟩
